import Mathlib

/-!
Shallow embedding of the incentive-calculation engine of the
`incentive-calculator` repository (TypeScript), together with proofs about
the claims of its specification.

The embedded code is the engine of `src/unnamed/part_001`
(`findTierTable`, `evaluateCondition`, `calculateAPE`,
`applyCalculationRules`, `isStrictlyEligible`, `calculateIncentiveForSubset`,
`calculateDynamicIncentives`), plus the product-name dropdown options of the
default configuration (`defaultColumns` in the config context module).

Modelling conventions:
- JavaScript numbers are modelled as rationals (`ℚ`); every arithmetic
  operation the engine performs (add, subtract, multiply, divide with an
  explicit `> 0` guard, `Math.max`, `Math.abs`) is exact on the rationals.
- The body of the `try` block of `evaluateCondition` (textual field
  substitution followed by dynamic `new Function` evaluation, whose result
  is coerced with `Boolean(...)`) is dynamic code evaluation and has no
  shallow embedding; it is abstracted as a parameter
  `ev : String → DynamicPolicyRow → Except Unit Bool` threaded through the
  engine.  `Except.error` models a thrown exception, which the `catch`
  branch of the source maps to `false`.
- `DynamicPolicyRow` is a schema-less map in the source
  (`{ id: string; [key: string]: any }`).  It is modelled as a closed record
  of the fields the engine itself reads (`policyName`, `paymentFrequency`,
  `paymentAmount`, `ciAbove25L`, `adb`) plus the remaining default-schema
  fields; fields are only otherwise consulted by the abstract condition
  evaluator, which receives the whole row.
- `Array.prototype.sort` with comparator `(a, b) => b.key - a.key` is a
  stable descending sort; it is modelled by the stable
  `List.insertionSort` with the relation `fun a b => b.key ≤ a.key`.
- `Math.max(...xs)` over a spread is only evaluated by the engine when a
  matching tier exists, hence on a non-empty list; `maxNop [] = 0` is an
  arbitrary value for the unreachable empty case (JS would give `-Infinity`).
- The per-subset helper of the source sets `isDeferred: false` on its
  gate-failure branch and leaves the field absent otherwise; the top-level
  merge unconditionally overwrites the flag on every row it returns, and the
  immediate-run rows are discarded, so the subset-level flag is not
  observable.  `CalculatedPolicy` therefore carries no flag; the flag lives
  on `FinalPolicy`, written by the top-level merge.
-/

namespace IncentiveCalc

/-- One entry of a tier table: `{ nop, incentive }` (source type `Tier`). -/
structure Tier where
  nop : ℚ
  incentive : ℚ
  deriving DecidableEq

/-- One entry of the ATS booster table: `{ minAts, incentive }`. -/
structure AtsEntry where
  minAts : ℚ
  incentive : ℚ
  deriving DecidableEq

/-- Source type `TierTable`. -/
structure TierTable where
  id : String
  organization : String
  vintage : String
  tiers : List Tier
  deriving DecidableEq

/-- The two values of the source's rule `type` field (`"payout" | "penalty"`). -/
inductive RuleType where
  | payout
  | penalty
  deriving DecidableEq

/-- Source type `CalculationRule`. -/
structure CalculationRule where
  id : String
  name : String
  condition : String
  adjustment : ℚ
  type : RuleType
  deriving DecidableEq

/-- Source type `ProductType`. -/
structure ProductType where
  id : String
  name : String
  enabled : Bool
  deriving DecidableEq

/-- Source type `FlexibleIncentiveConfig`.  The `criterionColumns` schema is
consumed only by the UI (the engine reads policy fields directly, and rule
conditions go through the abstract evaluator), so it is not modelled. -/
structure FlexibleIncentiveConfig where
  month : String := ""
  productTypes : List ProductType := []
  tierTables : List TierTable
  calculationRules : List CalculationRule
  organizations : List String := []
  vintages : List String := []
  atsTable : Option (List AtsEntry)
  deriving DecidableEq

/-- Source type `DynamicPolicyRow`, restricted to the default schema columns.
The engine's numeric logic reads `policyName`, `paymentFrequency`,
`paymentAmount`, `ciAbove25L` and `adb`; the other columns reach the engine
only through the abstract condition evaluator. -/
structure DynamicPolicyRow where
  id : String := ""
  policyName : String := ""
  paymentType : String := ""
  paymentFrequency : String := ""
  paymentAmount : ℚ := 0
  ciAbove25L : Bool := false
  adb : Bool := false
  autopay : Bool := false
  bfl : Bool := false
  superwoman : Bool := false
  spouse : Bool := false
  ekyc : Bool := false
  accountAggregator : Bool := false
  deriving DecidableEq

/-- Source type `BulkSessionInput`. -/
structure BulkSessionInput where
  month : String := ""
  organization : String
  vintage : String
  productType : String := ""
  employeeName : String := ""
  employeeId : String := ""
  numPolicies : ℕ := 0
  policies : List DynamicPolicyRow
  deriving DecidableEq

/-- A policy row annotated by the per-subset pass of the engine with the
derived fields `ape`, `additionalPayout`, `totalPenalty`, `totalIncentive`
(the TS code spreads them onto the row object). -/
structure CalculatedPolicy where
  row : DynamicPolicyRow
  ape : ℚ
  additionalPayout : ℚ
  totalPenalty : ℚ
  totalIncentive : ℚ
  deriving DecidableEq

/-- A calculated policy as returned by the top-level engine, annotated with
the deferred flag written by the final merge. -/
structure FinalPolicy where
  calculated : CalculatedPolicy
  isDeferred : Bool
  deriving DecidableEq

/-- The `breakdown` field of the result. -/
structure Breakdown where
  totalBase : ℚ
  totalPayouts : ℚ
  totalPenalties : ℚ
  totalRate : ℚ
  deriving DecidableEq

/-- Return type of the internal helper `calculateIncentiveForSubset`. -/
structure SubsetResult where
  policies : List CalculatedPolicy
  totalGenerated : ℚ
  baseFromSlab : ℚ
  totalPayouts : ℚ
  totalPenalties : ℚ
  totalBoostAmount : ℚ
  averageTicketSize : ℚ
  deriving DecidableEq

/-- Source type `DynamicCalculationResult`. -/
structure DynamicCalculationResult where
  policies : List FinalPolicy
  totalIncentive : ℚ
  deferredIncentive : ℚ
  averageTicketSize : ℚ
  atsIncentive : ℚ
  breakdown : Breakdown
  deriving DecidableEq

/-- Abstract model of the fallible body of `evaluateCondition`'s `try` block:
field substitution plus dynamic `new Function` evaluation, with the result
coerced to a boolean.  `Except.error ()` models a thrown exception. -/
abbrev CondEval := String → DynamicPolicyRow → Except Unit Bool

/-- Source function `isStrictlyEligible` (part_001 lines 15-19): CI rider above 25 lakhs AND
ADB rider, i.e. both checkbox fields strictly `true`. -/
def isStrictlyEligible (policy : DynamicPolicyRow) : Bool :=
  policy.ciAbove25L && policy.adb

/-- The vintage normalization applied both by `findTierTable` (lines 27-30)
and by the gate computation (lines 126-127): the label
`"More than 3 Months"` is looked up as `"Tier 1"`. -/
def effectiveVintage (vintage : String) : String :=
  if vintage = "More than 3 Months" then "Tier 1" else vintage

/-- Source function `findTierTable` (part_001 lines 22-32).  Note that the source predicate
tests only the vintage; the `organization` parameter is accepted but never
used. -/
def findTierTable (config : FlexibleIncentiveConfig)
    (organization vintage : String) : Option TierTable :=
  config.tierTables.find? (fun t => decide (t.vintage = effectiveVintage vintage))

/-- Source function `evaluateCondition` (part_001 lines 35-56): run the abstracted `try`
body; the `catch` branch returns `false`. -/
def evaluateCondition (ev : CondEval) (condition : String)
    (policy : DynamicPolicyRow) : Bool :=
  match ev condition policy with
  | Except.ok b => b
  | Except.error _ => false

/-- Source function `calculateAPE` (part_001 lines 59-75).  `Number(amount) || 0` is the
identity on an (already numeric) rational amount. -/
def calculateAPE (policy : DynamicPolicyRow) : ℚ :=
  match policy.paymentFrequency with
  | "Monthly" => policy.paymentAmount * 12
  | "Quarterly" => policy.paymentAmount * 4
  | "Half-Yearly" => policy.paymentAmount * 2
  | "Annual" => policy.paymentAmount
  | _ => policy.paymentAmount

/-- The body of the `rules.forEach` loop of `applyCalculationRules`
(part_001 lines 86-99), acting on the running `(totalPayouts, totalPenalties)`
pair: a matching penalty rule adds its absolute adjustment unconditionally; a
matching payout rule adds its adjustment only when the policy is eligible. -/
def applyRuleStep (ev : CondEval) (policy : DynamicPolicyRow)
    (isEligible : Bool) (acc : ℚ × ℚ) (rule : CalculationRule) : ℚ × ℚ :=
  if evaluateCondition ev rule.condition policy then
    match rule.type with
    | RuleType.penalty => (acc.1, acc.2 + |rule.adjustment|)
    | RuleType.payout => (if isEligible then acc.1 + rule.adjustment else acc.1, acc.2)
  else acc

/-- Source function `applyCalculationRules` (part_001 lines 78-102), returning
`(totalPayouts, totalPenalties)`. -/
def applyCalculationRules (ev : CondEval) (policy : DynamicPolicyRow)
    (rules : List CalculationRule) (isEligible : Bool) : ℚ × ℚ :=
  rules.foldl (applyRuleStep ev policy isEligible) (0, 0)

/-- The gate minimum of part_001 lines 129-131: default 4 (Tier 1), 5 for
Tier 2, 3 for the 0-3 Months band, computed on the normalized vintage. -/
def minGateRequired (vintage : String) : ℕ :=
  if effectiveVintage vintage = "Tier 2" then 5
  else if effectiveVintage vintage = "0-3 Months" then 3
  else 4

/-- Descending-by-`nop` order used by `[...tierTable.tiers].sort((a, b) => b.nop - a.nop)`. -/
def tierDescRel (a b : Tier) : Prop := b.nop ≤ a.nop

instance : DecidableRel tierDescRel :=
  fun a b => inferInstanceAs (Decidable (b.nop ≤ a.nop))

instance : IsTotal Tier tierDescRel := ⟨fun a b => le_total b.nop a.nop⟩

instance : IsTrans Tier tierDescRel := ⟨fun _ _ _ h1 h2 => le_trans h2 h1⟩

/-- Descending-by-`minAts` order used by `[...config.atsTable].sort((a, b) => b.minAts - a.minAts)`. -/
def atsDescRel (a b : AtsEntry) : Prop := b.minAts ≤ a.minAts

instance : DecidableRel atsDescRel :=
  fun a b => inferInstanceAs (Decidable (b.minAts ≤ a.minAts))

instance : IsTotal AtsEntry atsDescRel := ⟨fun a b => le_total b.minAts a.minAts⟩

instance : IsTrans AtsEntry atsDescRel := ⟨fun _ _ _ h1 h2 => le_trans h2 h1⟩

/-- Model of `Math.max(...tierTable.tiers.map((t) => t.nop))` (part_001 line 166).
The engine evaluates it only when a matching tier exists, hence on a
non-empty list; the `[]` case is unreachable there. -/
def maxNop : List Tier → ℚ
  | [] => 0
  | t :: ts => ts.foldl (fun a u => max a u.nop) t.nop

/-- The tier selected by part_001 lines 159-160: sort descending by `nop`
(stably, as JS `sort` is), take the first entry with `termNOP >= t.nop`. -/
def matchedTier (tiers : List Tier) (termNOP : ℕ) : Option Tier :=
  (List.insertionSort tierDescRel tiers).find?
    (fun t => decide ((termNOP : ℚ) ≥ t.nop))

/-- The slab block of part_001 lines 158-172 for one tier list: the matched
tier's incentive, plus `2000` per unit of `termNOP` in excess of the largest
threshold when above the cap; `0` when no tier matches. -/
def resolveTierAmount (tiers : List Tier) (termNOP : ℕ) : ℚ :=
  match matchedTier tiers termNOP with
  | none => 0
  | some matching =>
      let maxTierNOP := maxNop tiers
      if (termNOP : ℚ) > maxTierNOP then
        matching.incentive + ((termNOP : ℚ) - maxTierNOP) * 2000
      else matching.incentive

/-- The ATS booster lookup of part_001 lines 178-185: sort the table
descending by `minAts`, take the first entry with
`averageTicketSize >= s.minAts`; no match gives multiplier `0`. -/
def resolveAtsMultiplier (atsTable : List AtsEntry) (averageTicketSize : ℚ) : ℚ :=
  match (List.insertionSort atsDescRel atsTable).find?
      (fun s => decide (averageTicketSize ≥ s.minAts)) with
  | none => 0
  | some matching => matching.incentive

/-- The body of the per-policy `map` of part_001 lines 195-226, returning the
annotated policy together with this policy's booster amount (which the source
accumulates into `totalBoostAmount`). -/
def processPolicy (ev : CondEval) (config : FlexibleIncentiveConfig)
    (baseSharePerPolicy atsMultiplier : ℚ) (policy : DynamicPolicyRow) :
    CalculatedPolicy × ℚ :=
  let ape := calculateAPE policy
  let isEligible := isStrictlyEligible policy
  let pp := applyCalculationRules ev policy config.calculationRules isEligible
  let generatedPreBoost := baseSharePerPolicy + pp.1 - pp.2
  let boosterForPolicy := generatedPreBoost * atsMultiplier
  let totalPolicyValue := generatedPreBoost + boosterForPolicy
  ({ row := policy
     ape := ape
     additionalPayout := pp.1
     totalPenalty := pp.2
     totalIncentive := totalPolicyValue }, boosterForPolicy)

/-- Source function `calculateIncentiveForSubset` (part_001 lines 109-237).  The source
accumulates `totalPayouts`, `totalPenalties`, `totalBoostAmount` and
`totalGenerated` imperatively inside the per-policy `map`; here they are the
(order-independent, since rational addition is commutative) sums over the
mapped list. -/
def calculateIncentiveForSubset (ev : CondEval)
    (config : FlexibleIncentiveConfig) (input : BulkSessionInput)
    (subsetPolicies : List DynamicPolicyRow) : SubsetResult :=
  let termNOP := subsetPolicies.length
  let gatePassed := termNOP ≥ minGateRequired input.vintage
  if gatePassed then
    let baseFromSlab :=
      match findTierTable config input.organization input.vintage with
      | none => 0
      | some tierTable => resolveTierAmount tierTable.tiers termNOP
    let totalAPE := subsetPolicies.foldl (fun sum p => sum + calculateAPE p) 0
    let averageTicketSize := if termNOP > 0 then totalAPE / (termNOP : ℚ) else 0
    let atsMultiplier :=
      match config.atsTable with
      | none => 0
      | some atsTable => resolveAtsMultiplier atsTable averageTicketSize
    let baseSharePerPolicy := if termNOP > 0 then baseFromSlab / (termNOP : ℚ) else 0
    let pairs := subsetPolicies.map
      (processPolicy ev config baseSharePerPolicy atsMultiplier)
    { policies := pairs.map Prod.fst
      totalGenerated := (pairs.map (fun q => q.1.totalIncentive)).sum
      baseFromSlab := baseFromSlab
      totalPayouts := (pairs.map (fun q => q.1.additionalPayout)).sum
      totalPenalties := (pairs.map (fun q => q.1.totalPenalty)).sum
      totalBoostAmount := (pairs.map (fun q => q.2)).sum
      averageTicketSize := averageTicketSize }
  else
    { policies := subsetPolicies.map (fun p =>
        { row := p
          ape := calculateAPE p
          additionalPayout := 0
          totalPenalty := 0
          totalIncentive := 0 })
      totalGenerated := 0
      baseFromSlab := 0
      totalPayouts := 0
      totalPenalties := 0
      totalBoostAmount := 0
      averageTicketSize := 0 }

/-- The deferral predicate of part_001 lines 250-253: product name
`"I-Secure Non Sachet"` or `"I-Secure sachet"`, with monthly payment. -/
def isDeferredPolicy (p : DynamicPolicyRow) : Bool :=
  (decide (p.policyName = "I-Secure Non Sachet") ||
    decide (p.policyName = "I-Secure sachet")) &&
  decide (p.paymentFrequency = "Monthly")

/-- Model of `allPolicies.filter((p) => !isDeferredPolicy(p))` (part_001 line 255). -/
def immediatePolicies (input : BulkSessionInput) : List DynamicPolicyRow :=
  input.policies.filter (fun p => !isDeferredPolicy p)

/-- Source function `calculateDynamicIncentives` (part_001 lines 242-318): two runs of the
per-subset helper (all policies, then immediate policies only);
`deferredIncentive = max(0, potential - immediate)`; the released aggregate
is the immediate-only total; the returned rows are the full-run rows tagged
with the deferral flag. -/
def calculateDynamicIncentives (ev : CondEval)
    (config : FlexibleIncentiveConfig) (input : BulkSessionInput) :
    DynamicCalculationResult :=
  let allPolicies := input.policies
  let resultAll := calculateIncentiveForSubset ev config input allPolicies
  let resultImmediate :=
    calculateIncentiveForSubset ev config input (immediatePolicies input)
  let totalPotential := resultAll.totalGenerated
  let totalImmediate := resultImmediate.totalGenerated
  let deferredIncentive := max 0 (totalPotential - totalImmediate)
  let totalReleasedNow := totalImmediate
  let finalPolicies := resultAll.policies.map (fun p =>
    { calculated := p, isDeferred := isDeferredPolicy p.row })
  { policies := finalPolicies
    totalIncentive := totalReleasedNow
    deferredIncentive := deferredIncentive
    averageTicketSize := resultAll.averageTicketSize
    atsIncentive := resultAll.totalBoostAmount
    breakdown :=
      { totalBase := resultAll.baseFromSlab
        totalPayouts := resultAll.totalPayouts
        totalPenalties := resultAll.totalPenalties
        totalRate :=
          if resultAll.policies.length > 0 then
            totalPotential / (resultAll.policies.length : ℚ)
          else 0 } }

/-- The `dropdownOptions` of the `policyName` column of the default
configuration (`defaultColumns` in the config context module). -/
def productNameDropdownOptions : List String :=
  ["Etouch", "I-Secure", "I-Secure sachet", "Other term"]

/-- Modelled from the spec: the fallback condition of the deferral-split
section of the specification (the full policy set passes the minimum-count
gate, removing the deferred policies drops the remaining count below the
gate threshold, and at least one immediate policy remains).  No such
condition appears in the source; the definition exists to state the claims
that mention it. -/
def fallbackCondition (input : BulkSessionInput) : Prop :=
  input.policies.length ≥ minGateRequired input.vintage ∧
  (immediatePolicies input).length < minGateRequired input.vintage ∧
  0 < (immediatePolicies input).length

instance (input : BulkSessionInput) : Decidable (fallbackCondition input) :=
  inferInstanceAs (Decidable (_ ∧ _ ∧ _))

/-- Modelled from the spec: "the sum of each immediate policy's share of the
full-set (potential) computation" — the per-policy values of the all-policies
run, summed over the non-deferred rows.  Used only to state the fallback
claim; the source computes no such quantity. -/
def immediateShareOfPotential (ev : CondEval)
    (config : FlexibleIncentiveConfig) (input : BulkSessionInput) : ℚ :=
  (((calculateIncentiveForSubset ev config input input.policies).policies.filter
      (fun p => !isDeferredPolicy p.row)).map
    (fun p => p.totalIncentive)).sum

/-! Concrete fixtures used by witnesses and counterexamples. -/

/-- An evaluator whose dynamic evaluation always succeeds with `false`
(matching an engine run in which no rule condition fires). -/
def okFalseEval : CondEval := fun _ _ => Except.ok false

/-- An evaluator whose dynamic evaluation always throws. -/
def failEval : CondEval := fun _ _ => Except.error ()

/-- An evaluator behaving as the source evaluator does on the condition
string `"penCond"` when that condition tests for the product name
`"I-Secure Non Sachet"`: true exactly on rows with that product name. -/
def penEval : CondEval := fun c p =>
  Except.ok (decide (c = "penCond") && decide (p.policyName = "I-Secure Non Sachet"))

/-- A plain annual Etouch policy, payment amount 100. -/
def e1 : DynamicPolicyRow :=
  { id := "1", policyName := "Etouch", paymentFrequency := "Annual", paymentAmount := 100 }

/-- A plain annual Etouch policy, payment amount 100. -/
def e2 : DynamicPolicyRow :=
  { id := "2", policyName := "Etouch", paymentFrequency := "Annual", paymentAmount := 100 }

/-- A plain annual Etouch policy, payment amount 100. -/
def e3 : DynamicPolicyRow :=
  { id := "3", policyName := "Etouch", paymentFrequency := "Annual", paymentAmount := 100 }

/-- A deferred policy: product `"I-Secure Non Sachet"`, monthly payment. -/
def d4 : DynamicPolicyRow :=
  { id := "4", policyName := "I-Secure Non Sachet", paymentFrequency := "Monthly",
    paymentAmount := 100 }

/-- A monthly policy with the dropdown product name `"I-Secure"`. -/
def dISecure : DynamicPolicyRow :=
  { id := "w", policyName := "I-Secure", paymentFrequency := "Monthly", paymentAmount := 100 }

/-- Config with a single Tier 1 table `[{nop 4, incentive 4000}]`, no rules,
no ATS table. -/
def cfg1 : FlexibleIncentiveConfig :=
  { tierTables :=
      [{ id := "t1", organization := "Inhouse", vintage := "Tier 1", tiers := [⟨4, 4000⟩] }]
    calculationRules := []
    atsTable := none }

/-- Session: Tier 1 vintage, three immediate policies and one deferred. -/
def inp1 : BulkSessionInput :=
  { organization := "Inhouse", vintage := "Tier 1", policies := [e1, e2, e3, d4] }

/-- Two tier tables sharing the vintage `"Tier 1"` but belonging to
different organizations. -/
def outT : TierTable :=
  { id := "a", organization := "Outsource", vintage := "Tier 1", tiers := [⟨4, 1000⟩] }

/-- The organization-matching table of the pair. -/
def inT : TierTable :=
  { id := "b", organization := "Inhouse", vintage := "Tier 1", tiers := [⟨4, 2000⟩] }

/-- Config holding the Outsource table before the Inhouse one. -/
def cfg2 : FlexibleIncentiveConfig :=
  { tierTables := [outT, inT], calculationRules := [], atsTable := none }

/-- Config with a 0-3 Months table whose slab is 3000 at counts 3 and 4,
and one penalty rule (adjustment -1000) whose condition is `"penCond"`. -/
def cfg3 : FlexibleIncentiveConfig :=
  { tierTables :=
      [{ id := "t", organization := "Inhouse", vintage := "0-3 Months",
         tiers := [⟨3, 3000⟩, ⟨4, 3000⟩] }]
    calculationRules :=
      [{ id := "r", name := "pen", condition := "penCond",
         adjustment := -1000, type := RuleType.penalty }]
    atsTable := none }

/-- Session: 0-3 Months vintage (gate 3), three immediate policies and one
deferred policy that the `cfg3` penalty rule matches. -/
def inp3 : BulkSessionInput :=
  { organization := "Inhouse", vintage := "0-3 Months", policies := [e1, e2, e3, d4] }

/-- Session with no policies at all. -/
def inpEmpty : BulkSessionInput :=
  { organization := "Inhouse", vintage := "Tier 1", policies := [] }

/-- Session with Tier 2 vintage (gate 5) and only three policies. -/
def inpT2 : BulkSessionInput :=
  { organization := "Inhouse", vintage := "Tier 2", policies := [e1, e2, e3] }

/-- A tier list whose incentive amounts DECREASE as the threshold rises. -/
def c8Tiers : List Tier := [⟨3, 5000⟩, ⟨4, 1000⟩]

/-- A single-entry tier list, threshold 3, amount 3000. -/
def c7wTiers : List Tier := [⟨3, 3000⟩]

/-- A tier list with nondecreasing, nonnegative incentive amounts. -/
def c8wTiers : List Tier := [⟨3, 3000⟩, ⟨4, 4000⟩]

/-! Helper lemmas about the descending sort, the tier match, and `maxNop`. -/

/-- In a list that is pairwise descending by threshold, the first entry whose
threshold is at most `n` has the largest threshold among all entries whose
threshold is at most `n`. -/
lemma find_sorted_max (n : ℕ) :
    ∀ l : List Tier, l.Pairwise tierDescRel →
      ∀ {t : Tier}, l.find? (fun u => decide ((n : ℚ) ≥ u.nop)) = some t →
        ∀ u ∈ l, u.nop ≤ (n : ℚ) → u.nop ≤ t.nop := by
  intro l
  induction l with
  | nil => intro _ t h; simp at h
  | cons x xs ih =>
    intro hpw t hfind u hu hun
    rcases List.pairwise_cons.mp hpw with ⟨hx, hxs⟩
    by_cases hpx : (n : ℚ) ≥ x.nop
    · rw [List.find?_cons_of_pos _ (by simpa using hpx)] at hfind
      cases hfind
      rcases List.mem_cons.mp hu with rfl | hu
      · exact le_refl _
      · exact hx u hu
    · rw [List.find?_cons_of_neg _ (by simpa using hpx)] at hfind
      rcases List.mem_cons.mp hu with rfl | hu
      · exact absurd hun (by simpa using hpx)
      · exact ih hxs hfind u hu hun

/-- Any tier the engine matches is an entry of the table. -/
lemma matchedTier_mem {tiers : List Tier} {n : ℕ} {t : Tier}
    (h : matchedTier tiers n = some t) : t ∈ tiers :=
  (List.perm_insertionSort tierDescRel tiers).mem_iff.mp (List.mem_of_find?_eq_some h)

/-- Any tier the engine matches has its threshold within the count. -/
lemma matchedTier_le {tiers : List Tier} {n : ℕ} {t : Tier}
    (h : matchedTier tiers n = some t) : t.nop ≤ (n : ℚ) := by
  have := List.find?_some h
  simpa [ge_iff_le] using this

/-- The matched tier has the highest threshold not exceeding the count. -/
lemma matchedTier_maximal {tiers : List Tier} {n : ℕ} {t : Tier}
    (h : matchedTier tiers n = some t) :
    ∀ u ∈ tiers, u.nop ≤ (n : ℚ) → u.nop ≤ t.nop := by
  intro u hu hun
  exact find_sorted_max n _ (List.sorted_insertionSort tierDescRel tiers) h u
    ((List.perm_insertionSort tierDescRel tiers).mem_iff.mpr hu) hun

/-- When the count is below every threshold, no tier matches. -/
lemma matchedTier_none {tiers : List Tier} {n : ℕ}
    (h : ∀ u ∈ tiers, (n : ℚ) < u.nop) : matchedTier tiers n = none := by
  apply List.find?_eq_none.mpr
  intro x hx
  have hx' : x ∈ tiers := (List.perm_insertionSort tierDescRel tiers).mem_iff.mp hx
  simpa [ge_iff_le, not_le] using h x hx'

/-- When some threshold is within the count, a tier matches. -/
lemma matchedTier_isSome {tiers : List Tier} {n : ℕ}
    (h : ∃ u ∈ tiers, u.nop ≤ (n : ℚ)) : ∃ t, matchedTier tiers n = some t := by
  rcases h with ⟨u, hu, hun⟩
  have hs : (matchedTier tiers n).isSome := by
    apply List.find?_isSome.mpr
    exact ⟨u, (List.perm_insertionSort tierDescRel tiers).mem_iff.mpr hu,
      by simpa [ge_iff_le] using hun⟩
  exact Option.isSome_iff_exists.mp hs

/-- The starting accumulator never exceeds a fold of `max` over thresholds. -/
lemma le_foldlMax (ts : List Tier) :
    ∀ a : ℚ, a ≤ ts.foldl (fun x u => max x u.nop) a := by
  induction ts with
  | nil => intro a; simp
  | cons u us ih =>
    intro a
    simpa using le_trans (le_max_left a u.nop) (ih (max a u.nop))

/-- Every member's threshold is bounded by the fold of `max`. -/
lemma mem_le_foldlMax (ts : List Tier) :
    ∀ (a : ℚ) (u : Tier), u ∈ ts → u.nop ≤ ts.foldl (fun x v => max x v.nop) a := by
  induction ts with
  | nil => simp
  | cons w ws ih =>
    intro a u hu
    rcases List.mem_cons.mp hu with rfl | hu
    · simpa using le_trans (le_max_right a u.nop) (le_foldlMax ws (max a u.nop))
    · simpa using ih (max a w.nop) u hu

/-- The fold of `max` equals the start or the threshold of some member. -/
lemma foldlMax_attained (ts : List Tier) :
    ∀ a : ℚ, ts.foldl (fun x u => max x u.nop) a = a ∨
      ∃ u ∈ ts, ts.foldl (fun x u => max x u.nop) a = u.nop := by
  induction ts with
  | nil => intro a; left; rfl
  | cons w ws ih =>
    intro a
    rw [List.foldl_cons]
    rcases ih (max a w.nop) with h | ⟨u, hu, h⟩
    · rcases max_choice a w.nop with hm | hm
      · left; rw [h, hm]
      · right; exact ⟨w, List.mem_cons_self w ws, by rw [h, hm]⟩
    · right; exact ⟨u, List.mem_cons_of_mem w hu, h⟩

/-- Every member's threshold is at most `maxNop`. -/
lemma le_maxNop {tiers : List Tier} {t : Tier} (h : t ∈ tiers) :
    t.nop ≤ maxNop tiers := by
  cases tiers with
  | nil => cases h
  | cons x xs =>
    rcases List.mem_cons.mp h with rfl | h
    · exact le_foldlMax xs t.nop
    · exact mem_le_foldlMax xs x.nop t h

/-- On a non-empty table some member attains `maxNop`. -/
lemma maxNop_attained {tiers : List Tier} (h : tiers ≠ []) :
    ∃ t ∈ tiers, t.nop = maxNop tiers := by
  cases tiers with
  | nil => exact absurd rfl h
  | cons x xs =>
    rcases foldlMax_attained xs x.nop with h' | ⟨u, hu, h'⟩
    · exact ⟨x, List.mem_cons_self x xs, h'.symm⟩
    · exact ⟨u, List.mem_cons_of_mem x hu, h'.symm⟩

/-- Above the largest threshold the match succeeds and lands on a tier
attaining the largest threshold. -/
lemma matchedTier_of_gt_max {tiers : List Tier} {n : ℕ} (hne : tiers ≠ [])
    (h : maxNop tiers < (n : ℚ)) :
    ∃ t, matchedTier tiers n = some t ∧ t.nop = maxNop tiers := by
  obtain ⟨m, hm, hmax⟩ := maxNop_attained hne
  obtain ⟨t, ht⟩ := matchedTier_isSome ⟨m, hm, by rw [hmax]; exact le_of_lt h⟩
  refine ⟨t, ht, le_antisymm (le_maxNop (matchedTier_mem ht)) ?_⟩
  rw [← hmax]
  exact matchedTier_maximal ht m hm (by rw [hmax]; exact le_of_lt h)

/-- The gate minimum is positive for every vintage label. -/
lemma minGate_pos (v : String) : 0 < minGateRequired v := by
  unfold minGateRequired
  split
  · norm_num
  · split <;> norm_num

/-- The empty subset always fails the gate, so it generates nothing. -/
lemma subset_total_nil (ev : CondEval) (config : FlexibleIncentiveConfig)
    (input : BulkSessionInput) :
    (calculateIncentiveForSubset ev config input []).totalGenerated = 0 := by
  simp [calculateIncentiveForSubset, not_le.mpr (minGate_pos input.vintage)]

/-- Fold form of the rule loop: starting from `(a, b)`, the loop adds the
eligible payout sum to `a` and the penalty sum to `b`. -/
lemma applyRules_foldl (ev : CondEval) (policy : DynamicPolicyRow) (isEligible : Bool) :
    ∀ (rules : List CalculationRule) (a b : ℚ),
      rules.foldl (applyRuleStep ev policy isEligible) (a, b) =
        (a + (if isEligible then
            ((rules.filter (fun r => evaluateCondition ev r.condition policy &&
              decide (r.type = RuleType.payout))).map (fun r => r.adjustment)).sum
          else 0),
         b + ((rules.filter (fun r => evaluateCondition ev r.condition policy &&
            decide (r.type = RuleType.penalty))).map (fun r => |r.adjustment|)).sum) := by
  intro rules
  induction rules with
  | nil => intro a b; simp
  | cons r rs ih =>
    intro a b
    rw [List.foldl_cons]
    by_cases hc : evaluateCondition ev r.condition policy
    · cases htype : r.type with
      | penalty =>
        have step : applyRuleStep ev policy isEligible (a, b) r = (a, b + |r.adjustment|) := by
          simp [applyRuleStep, hc, htype]
        rw [step, ih]
        cases isEligible <;> simp [List.filter_cons, hc, htype] <;> ring
      | payout =>
        cases isEligible with
        | false =>
          have step : applyRuleStep ev policy false (a, b) r = (a, b) := by
            simp [applyRuleStep, hc, htype]
          rw [step, ih]
          simp [List.filter_cons, hc, htype]
        | true =>
          have step : applyRuleStep ev policy true (a, b) r = (a + r.adjustment, b) := by
            simp [applyRuleStep, hc, htype]
          rw [step, ih]
          simp [List.filter_cons, hc, htype]
          ring
    · have step : applyRuleStep ev policy isEligible (a, b) r = (a, b) := by
        simp [applyRuleStep, hc]
      rw [step, ih]
      simp [List.filter_cons, hc]

/-! Claim theorems. -/

/-- Claim C1 (amended): for every configuration and session input, the
released amount (the result's aggregate `totalIncentive`) always equals the
total generated by the immediate-only run.  The engine contains no fallback
branch, so this holds even when the fallback condition of the specification
is satisfied (in that case the immediate-only run fails its own gate and the
released amount is `0`). -/
theorem claim1_amended_released_equals_immediate (ev : CondEval)
    (config : FlexibleIncentiveConfig) (input : BulkSessionInput) :
    (calculateDynamicIncentives ev config input).totalIncentive =
      (calculateIncentiveForSubset ev config input (immediatePolicies input)).totalGenerated := rfl

/-- Claim C1 counterexample: on a Tier 1 session with one deferred and three
immediate policies (full set passes the gate of 4, the immediate subset does
not), the fallback condition of the specification holds, yet the engine
releases `0` — not the `3000` that the immediate policies are worth inside
the full-set (potential) run as the claim requires. -/
theorem claim1_counterexample :
    fallbackCondition inp1 ∧
    (calculateDynamicIncentives okFalseEval cfg1 inp1).totalIncentive = 0 ∧
    immediateShareOfPotential okFalseEval cfg1 inp1 = 3000 ∧
    (calculateDynamicIncentives okFalseEval cfg1 inp1).totalIncentive ≠
      immediateShareOfPotential okFalseEval cfg1 inp1 := by
  have h0 : (calculateDynamicIncentives okFalseEval cfg1 inp1).totalIncentive = 0 := by
    simp [calculateDynamicIncentives, calculateIncentiveForSubset, immediatePolicies,
      isDeferredPolicy, minGateRequired, effectiveVintage, List.filter_cons,
      cfg1, inp1, e1, e2, e3, d4, okFalseEval]
  have h3 : immediateShareOfPotential okFalseEval cfg1 inp1 = 3000 := by
    simp [immediateShareOfPotential, calculateIncentiveForSubset, minGateRequired,
      effectiveVintage, findTierTable, resolveTierAmount, matchedTier, maxNop,
      List.insertionSort, List.orderedInsert, tierDescRel, List.find?_cons,
      processPolicy, applyCalculationRules, applyRuleStep, evaluateCondition,
      calculateAPE, isStrictlyEligible, isDeferredPolicy, List.filter_cons,
      cfg1, inp1, e1, e2, e3, d4, okFalseEval]
    norm_num [calculateAPE, e1, e2, e3, d4]
  refine ⟨by decide, h0, h3, ?_⟩
  rw [h0, h3]
  norm_num

/-- Claim C2 (amended): the tier-table resolver ignores the organization
entirely (its result is the same for any two organizations); it selects the
first table whose vintage equals the normalized vintage (with
`"More than 3 Months"` normalized to `"Tier 1"`); within the tier list, a
matched tier is an entry whose threshold does not exceed the count and is
the highest such threshold; and when the count is below every threshold the
slab contribution is zero. -/
theorem claim2_amended_tier_resolution :
    (∀ (config : FlexibleIncentiveConfig) (org1 org2 vintage : String),
      findTierTable config org1 vintage = findTierTable config org2 vintage) ∧
    (∀ (config : FlexibleIncentiveConfig) (org vintage : String) (t : TierTable),
      findTierTable config org vintage = some t →
        t ∈ config.tierTables ∧ t.vintage = effectiveVintage vintage) ∧
    (∀ (tiers : List Tier) (n : ℕ) (t : Tier), matchedTier tiers n = some t →
      t ∈ tiers ∧ t.nop ≤ (n : ℚ) ∧ ∀ u ∈ tiers, u.nop ≤ (n : ℚ) → u.nop ≤ t.nop) ∧
    (∀ (tiers : List Tier) (n : ℕ), (∀ u ∈ tiers, (n : ℚ) < u.nop) →
      resolveTierAmount tiers n = 0) := by
  refine ⟨fun _ _ _ _ => rfl, ?_, ?_, ?_⟩
  · intro config org vintage t h
    exact ⟨List.mem_of_find?_eq_some h, by simpa using List.find?_some h⟩
  · intro tiers n t h
    exact ⟨matchedTier_mem h, matchedTier_le h, matchedTier_maximal h⟩
  · intro tiers n h
    simp [resolveTierAmount, matchedTier_none h]

/-- Claim C2 counterexample: with two tables of vintage `"Tier 1"` — an
Outsource one listed first and an Inhouse one listed second — a lookup for
organization `"Inhouse"` returns the Outsource table, so the resolver does
not select the table matching both organization and vintage even though such
a table exists. -/
theorem claim2_counterexample :
    findTierTable cfg2 "Inhouse" "Tier 1" = some outT ∧
    outT.organization = "Outsource" ∧
    inT ∈ cfg2.tierTables ∧ inT.organization = "Inhouse" ∧ inT.vintage = "Tier 1" ∧
    outT ≠ inT := by
  refine ⟨?_, rfl, by decide, rfl, rfl, by decide⟩
  simp [findTierTable, effectiveVintage, cfg2, outT, inT, List.find?_cons]

/-- Claim C2 witness: the vintage alias resolves (ignoring the organization)
to a table of vintage `"Tier 1"`, and a count below every threshold yields a
zero slab. -/
theorem claim2_amended_tier_resolution_witness :
    (outT ∈ cfg2.tierTables ∧ outT.vintage = effectiveVintage "More than 3 Months") ∧
    resolveTierAmount c8Tiers 2 = 0 :=
  ⟨claim2_amended_tier_resolution.2.1 cfg2 "Inhouse" "More than 3 Months" outT (by
      simp [findTierTable, effectiveVintage, cfg2, outT, inT, List.find?_cons]),
   claim2_amended_tier_resolution.2.2.2 c8Tiers 2 (by decide)⟩

/-- Claim C3 (amended): `deferredIncentive` is always nonnegative; and
whenever the fallback condition is not satisfied AND the immediate-only
total does not exceed the potential (all-policies) total, released plus
deferred equals the potential total. -/
theorem claim3_amended_split (ev : CondEval) (config : FlexibleIncentiveConfig)
    (input : BulkSessionInput) :
    0 ≤ (calculateDynamicIncentives ev config input).deferredIncentive ∧
    (¬ fallbackCondition input →
      (calculateIncentiveForSubset ev config input (immediatePolicies input)).totalGenerated ≤
        (calculateIncentiveForSubset ev config input input.policies).totalGenerated →
      (calculateDynamicIncentives ev config input).totalIncentive +
        (calculateDynamicIncentives ev config input).deferredIncentive =
        (calculateIncentiveForSubset ev config input input.policies).totalGenerated) := by
  constructor
  · exact le_max_left 0 _
  · intro _ himm
    show (calculateIncentiveForSubset ev config input (immediatePolicies input)).totalGenerated +
      max 0 ((calculateIncentiveForSubset ev config input input.policies).totalGenerated -
        (calculateIncentiveForSubset ev config input (immediatePolicies input)).totalGenerated) = _
    rw [max_eq_right (sub_nonneg.mpr himm)]
    ring

/-- Claim C3 counterexample: a deferred policy carrying a penalty makes the
all-policies total (2000) smaller than the immediate-only total (3000); the
fallback condition does not hold, yet released plus deferred is 3000, not
the potential total 2000. -/
theorem claim3_counterexample :
    ¬ fallbackCondition inp3 ∧
    (calculateDynamicIncentives penEval cfg3 inp3).totalIncentive +
      (calculateDynamicIncentives penEval cfg3 inp3).deferredIncentive ≠
      (calculateIncentiveForSubset penEval cfg3 inp3 inp3.policies).totalGenerated := by
  have h1 : (calculateDynamicIncentives penEval cfg3 inp3).totalIncentive = 3000 := by
    simp [calculateDynamicIncentives, calculateIncentiveForSubset, immediatePolicies,
      isDeferredPolicy, minGateRequired, effectiveVintage, findTierTable, resolveTierAmount,
      matchedTier, maxNop, List.insertionSort, List.orderedInsert, tierDescRel, List.find?_cons,
      processPolicy, applyCalculationRules, applyRuleStep, evaluateCondition, calculateAPE,
      isStrictlyEligible, List.filter_cons, cfg3, inp3, e1, e2, e3, d4, penEval]
    norm_num
  have h2 : (calculateDynamicIncentives penEval cfg3 inp3).deferredIncentive = 0 := by
    simp [calculateDynamicIncentives, calculateIncentiveForSubset, immediatePolicies,
      isDeferredPolicy, minGateRequired, effectiveVintage, findTierTable, resolveTierAmount,
      matchedTier, maxNop, List.insertionSort, List.orderedInsert, tierDescRel, List.find?_cons,
      processPolicy, applyCalculationRules, applyRuleStep, evaluateCondition, calculateAPE,
      isStrictlyEligible, List.filter_cons, cfg3, inp3, e1, e2, e3, d4, penEval]
    norm_num
  have h3 : (calculateIncentiveForSubset penEval cfg3 inp3 inp3.policies).totalGenerated = 2000 := by
    simp [calculateIncentiveForSubset, immediatePolicies,
      isDeferredPolicy, minGateRequired, effectiveVintage, findTierTable, resolveTierAmount,
      matchedTier, maxNop, List.insertionSort, List.orderedInsert, tierDescRel, List.find?_cons,
      processPolicy, applyCalculationRules, applyRuleStep, evaluateCondition, calculateAPE,
      isStrictlyEligible, List.filter_cons, cfg3, inp3, e1, e2, e3, d4, penEval]
    norm_num
  refine ⟨by decide, ?_⟩
  rw [h1, h2, h3]
  norm_num

/-- Claim C3 witness: on the empty session the fallback condition fails, the
immediate total does not exceed the potential total, and released plus
deferred equals the potential total. -/
theorem claim3_amended_split_witness :
    0 ≤ (calculateDynamicIncentives okFalseEval cfg1 inpEmpty).deferredIncentive ∧
    (calculateDynamicIncentives okFalseEval cfg1 inpEmpty).totalIncentive +
      (calculateDynamicIncentives okFalseEval cfg1 inpEmpty).deferredIncentive =
      (calculateIncentiveForSubset okFalseEval cfg1 inpEmpty inpEmpty.policies).totalGenerated :=
  ⟨(claim3_amended_split okFalseEval cfg1 inpEmpty).1,
   (claim3_amended_split okFalseEval cfg1 inpEmpty).2 (by decide) (by decide)⟩

/-- Claim C4: the gate minimum is 3 for `"0-3 Months"`, 4 for `"Tier 1"` and
its `"More than 3 Months"` alias, and 5 for `"Tier 2"`; and any subset
smaller than the gate minimum produces an all-zero result in which every
policy still receives its computed APE. -/
theorem claim4_gate_zeroes :
    (minGateRequired "0-3 Months" = 3 ∧ minGateRequired "Tier 1" = 4 ∧
      minGateRequired "More than 3 Months" = 4 ∧ minGateRequired "Tier 2" = 5) ∧
    (∀ (ev : CondEval) (config : FlexibleIncentiveConfig) (input : BulkSessionInput)
      (subset : List DynamicPolicyRow),
      subset.length < minGateRequired input.vintage →
      calculateIncentiveForSubset ev config input subset =
        { policies := subset.map (fun p =>
            { row := p, ape := calculateAPE p, additionalPayout := 0,
              totalPenalty := 0, totalIncentive := 0 })
          totalGenerated := 0, baseFromSlab := 0, totalPayouts := 0,
          totalPenalties := 0, totalBoostAmount := 0, averageTicketSize := 0 }) := by
  refine ⟨by decide, ?_⟩
  intro ev config input subset h
  simp [calculateIncentiveForSubset, not_le.mpr h]

/-- Claim C4 witness: three policies under the Tier 2 gate of five produce
the all-zero result with APE still computed per policy. -/
theorem claim4_gate_zeroes_witness :
    calculateIncentiveForSubset okFalseEval cfg1 inpT2 [e1, e2, e3] =
      { policies := [e1, e2, e3].map (fun p =>
          { row := p, ape := calculateAPE p, additionalPayout := 0,
            totalPenalty := 0, totalIncentive := 0 })
        totalGenerated := 0, baseFromSlab := 0, totalPayouts := 0,
        totalPenalties := 0, totalBoostAmount := 0, averageTicketSize := 0 } :=
  claim4_gate_zeroes.2 okFalseEval cfg1 inpT2 [e1, e2, e3] (by decide)

/-- Claim C5: for every policy, rule list and eligibility value, the penalty
total is the sum of the absolute adjustments of the matching penalty rules
(independent of eligibility), the payout total is the sum of the adjustments
of the matching payout rules when the policy is eligible and zero otherwise,
and eligibility is exactly the conjunction of the CI-above-25-lakh flag and
the ADB flag. -/
theorem claim5_rule_asymmetry (ev : CondEval) (policy : DynamicPolicyRow)
    (rules : List CalculationRule) (isEligible : Bool) :
    (applyCalculationRules ev policy rules isEligible).2 =
      ((rules.filter (fun r => evaluateCondition ev r.condition policy &&
        decide (r.type = RuleType.penalty))).map (fun r => |r.adjustment|)).sum ∧
    (applyCalculationRules ev policy rules isEligible).1 =
      (if isEligible then
        ((rules.filter (fun r => evaluateCondition ev r.condition policy &&
          decide (r.type = RuleType.payout))).map (fun r => r.adjustment)).sum
      else 0) ∧
    (applyCalculationRules ev policy rules false).1 = 0 ∧
    isStrictlyEligible policy = (policy.ciAbove25L && policy.adb) := by
  refine ⟨?_, ?_, ?_, rfl⟩
  · rw [applyCalculationRules, applyRules_foldl]; simp
  · rw [applyCalculationRules, applyRules_foldl]; simp
  · rw [applyCalculationRules, applyRules_foldl]; simp

/-- Claim C6: the per-policy rows of the result are exactly the rows of the
full-set (potential) run, each annotated with its deferral flag, while the
aggregate `totalIncentive` is the immediate-only total and
`deferredIncentive` is the clamped difference of the two runs. -/
theorem claim6_per_policy_reports_potential (ev : CondEval)
    (config : FlexibleIncentiveConfig) (input : BulkSessionInput) :
    (calculateDynamicIncentives ev config input).policies =
      (calculateIncentiveForSubset ev config input input.policies).policies.map (fun p =>
        { calculated := p, isDeferred := isDeferredPolicy p.row }) ∧
    (calculateDynamicIncentives ev config input).totalIncentive =
      (calculateIncentiveForSubset ev config input (immediatePolicies input)).totalGenerated ∧
    (calculateDynamicIncentives ev config input).deferredIncentive =
      max 0 ((calculateIncentiveForSubset ev config input input.policies).totalGenerated -
        (calculateIncentiveForSubset ev config input (immediatePolicies input)).totalGenerated) :=
  ⟨rfl, rfl, rfl⟩

/-- Claim C7: when the count exceeds the largest threshold of the tier list,
the match lands on a tier attaining that largest threshold and the resolved
slab amount is that tier's incentive plus 2000 per unit of excess. -/
theorem claim7_above_cap (tiers : List Tier) (n : ℕ) (hne : tiers ≠ [])
    (h : maxNop tiers < (n : ℚ)) :
    ∃ t, matchedTier tiers n = some t ∧ t.nop = maxNop tiers ∧
      resolveTierAmount tiers n = t.incentive + ((n : ℚ) - maxNop tiers) * 2000 := by
  obtain ⟨t, ht, htop⟩ := matchedTier_of_gt_max hne h
  refine ⟨t, ht, htop, ?_⟩
  simp only [resolveTierAmount, ht]
  rw [if_pos h]

/-- Claim C7 witness: a one-entry table (threshold 3, amount 3000) at count 5
resolves to 3000 plus 2 excess units times 2000, i.e. 7000. -/
theorem claim7_above_cap_witness : resolveTierAmount c7wTiers 5 = 7000 := by
  obtain ⟨t, h1, h2, h3⟩ := claim7_above_cap c7wTiers 5 (by decide) (by decide)
  have ht : matchedTier c7wTiers 5 = some ⟨3, 3000⟩ := by decide
  rw [ht] at h1
  have := Option.some.inj h1
  subst this
  rw [h3]
  norm_num [maxNop, c7wTiers]

/-- Claim C8 (amended): tier resolution is monotone in the count provided
the table's incentive amounts are nonnegative and nondecreasing in the
threshold; the above-cap bonus preserves monotonicity. -/
theorem claim8_amended_monotone (tiers : List Tier) (c1 c2 : ℕ)
    (hmono : ∀ t ∈ tiers, ∀ u ∈ tiers, t.nop ≤ u.nop → t.incentive ≤ u.incentive)
    (hpos : ∀ t ∈ tiers, 0 ≤ t.incentive)
    (h12 : c1 ≤ c2) :
    resolveTierAmount tiers c1 ≤ resolveTierAmount tiers c2 := by
  have hc12 : ((c1 : ℚ)) ≤ (c2 : ℚ) := by exact_mod_cast h12
  cases h1 : matchedTier tiers c1 with
  | none =>
    have e1 : resolveTierAmount tiers c1 = 0 := by simp [resolveTierAmount, h1]
    rw [e1]
    cases h2 : matchedTier tiers c2 with
    | none => simp [resolveTierAmount, h2]
    | some t2 =>
      have hi := hpos t2 (matchedTier_mem h2)
      simp only [resolveTierAmount, h2]
      split
      · rename_i hgt
        have hb : 0 ≤ ((c2 : ℚ) - maxNop tiers) * 2000 := by
          have := le_of_lt hgt
          nlinarith
        linarith
      · exact hi
  | some t1 =>
    have ht1n : t1.nop ≤ (c1 : ℚ) := matchedTier_le h1
    have ht1mem : t1 ∈ tiers := matchedTier_mem h1
    obtain ⟨t2, h2⟩ := matchedTier_isSome ⟨t1, ht1mem, le_trans ht1n hc12⟩
    have ht2mem := matchedTier_mem h2
    have h1le2 : t1.nop ≤ t2.nop := matchedTier_maximal h2 t1 ht1mem (le_trans ht1n hc12)
    have hinc : t1.incentive ≤ t2.incentive := hmono t1 ht1mem t2 ht2mem h1le2
    by_cases hcap1 : (c1 : ℚ) > maxNop tiers
    · have hcap2 : (c2 : ℚ) > maxNop tiers := lt_of_lt_of_le hcap1 hc12
      have hne : tiers ≠ [] := by
        intro h'
        rw [h'] at ht1mem
        cases ht1mem
      obtain ⟨s1, hs1, hs1top⟩ := matchedTier_of_gt_max hne hcap1
      obtain ⟨s2, hs2, hs2top⟩ := matchedTier_of_gt_max hne hcap2
      rw [h1] at hs1
      rw [h2] at hs2
      cases hs1
      cases hs2
      simp only [resolveTierAmount, h1, h2]
      rw [if_pos hcap1, if_pos hcap2]
      linarith
    · have e1 : resolveTierAmount tiers c1 = t1.incentive := by
        simp only [resolveTierAmount, h1]
        rw [if_neg hcap1]
      rw [e1]
      by_cases hcap2 : (c2 : ℚ) > maxNop tiers
      · have hb : 0 ≤ ((c2 : ℚ) - maxNop tiers) * 2000 := by
          have := le_of_lt hcap2
          nlinarith
        simp only [resolveTierAmount, h2]
        rw [if_pos hcap2]
        linarith
      · simp only [resolveTierAmount, h2]
        rw [if_neg hcap2]
        exact hinc

/-- Claim C8 counterexample: on a table whose incentive drops from 5000 at
threshold 3 to 1000 at threshold 4, counts 3 ≤ 4 resolve to amounts 5000 and
1000, so resolution is not monotone for every table. -/
theorem claim8_counterexample :
    (3 : ℕ) ≤ 4 ∧
    resolveTierAmount c8Tiers 3 = 5000 ∧
    resolveTierAmount c8Tiers 4 = 1000 ∧
    ¬ resolveTierAmount c8Tiers 3 ≤ resolveTierAmount c8Tiers 4 := by
  have h3 : resolveTierAmount c8Tiers 3 = 5000 := by
    simp [resolveTierAmount, matchedTier, maxNop, List.insertionSort, List.orderedInsert,
      tierDescRel, List.find?_cons, c8Tiers]
    norm_num
  have h4 : resolveTierAmount c8Tiers 4 = 1000 := by
    simp [resolveTierAmount, matchedTier, maxNop, List.insertionSort, List.orderedInsert,
      tierDescRel, List.find?_cons, c8Tiers]
    norm_num
  refine ⟨by norm_num, h3, h4, ?_⟩
  rw [h3, h4]
  norm_num

/-- Claim C8 witness: on a table with nondecreasing nonnegative incentives
the resolved amount at count 3 does not exceed the one at count 4. -/
theorem claim8_amended_monotone_witness :
    resolveTierAmount c8wTiers 3 ≤ resolveTierAmount c8wTiers 4 :=
  claim8_amended_monotone c8wTiers 3 4 (by decide) (by decide) (by decide)

/-- Claim C9: the condition evaluator maps any failure of the (abstracted)
dynamic evaluation to `false` and any success to its boolean result, so it
never propagates a failure; and degenerate input (an empty policy list)
yields zero released and zero deferred amounts rather than an error.  All
embedded engine functions are total, so no other failure path exists. -/
theorem claim9_evaluator_total (ev : CondEval) :
    (∀ (c : String) (p : DynamicPolicyRow),
      (∃ e, ev c p = Except.error e) → evaluateCondition ev c p = false) ∧
    (∀ (c : String) (p : DynamicPolicyRow) (b : Bool),
      ev c p = Except.ok b → evaluateCondition ev c p = b) ∧
    (∀ (config : FlexibleIncentiveConfig) (input : BulkSessionInput),
      input.policies = [] →
      (calculateDynamicIncentives ev config input).totalIncentive = 0 ∧
      (calculateDynamicIncentives ev config input).deferredIncentive = 0) := by
  refine ⟨?_, ?_, ?_⟩
  · rintro c p ⟨e, he⟩
    simp [evaluateCondition, he]
  · intro c p b h
    simp [evaluateCondition, h]
  · intro config input h
    have himm : immediatePolicies input = [] := by simp [immediatePolicies, h]
    have hall : (calculateIncentiveForSubset ev config input input.policies).totalGenerated = 0 := by
      rw [h]; exact subset_total_nil ev config input
    have himm0 :
        (calculateIncentiveForSubset ev config input (immediatePolicies input)).totalGenerated = 0 := by
      rw [himm]; exact subset_total_nil ev config input
    constructor
    · exact himm0
    · show max 0 ((calculateIncentiveForSubset ev config input input.policies).totalGenerated -
        (calculateIncentiveForSubset ev config input (immediatePolicies input)).totalGenerated) = 0
      rw [hall, himm0]
      simp

/-- Claim C9 witness: an always-throwing evaluator is caught and yields
`false`, and the empty session yields a zero released amount. -/
theorem claim9_evaluator_total_witness :
    evaluateCondition failEval "anyCondition" e1 = false ∧
    (calculateDynamicIncentives failEval cfg1 inpEmpty).totalIncentive = 0 :=
  ⟨(claim9_evaluator_total failEval).1 "anyCondition" e1 ⟨(), rfl⟩,
   ((claim9_evaluator_total failEval).2.2 cfg1 inpEmpty rfl).1⟩

/-- Claim C10: a policy is flagged deferred exactly when its product name is
`"I-Secure Non Sachet"` or `"I-Secure sachet"` and its payment frequency is
`"Monthly"`; the dropdown option `"I-Secure"` is never flagged deferred. -/
theorem claim10_deferred_flag :
    (∀ p : DynamicPolicyRow, isDeferredPolicy p = true ↔
      ((p.policyName = "I-Secure Non Sachet" ∨ p.policyName = "I-Secure sachet") ∧
        p.paymentFrequency = "Monthly")) ∧
    "I-Secure" ∈ productNameDropdownOptions ∧
    (∀ p : DynamicPolicyRow, p.policyName = "I-Secure" → isDeferredPolicy p = false) := by
  refine ⟨?_, by decide, ?_⟩
  · intro p
    simp [isDeferredPolicy]
  · intro p hp
    simp [isDeferredPolicy, hp]

/-- Claim C10 witness: the monthly `"I-Secure Non Sachet"` policy is flagged
deferred; the monthly `"I-Secure"` policy is not. -/
theorem claim10_deferred_flag_witness :
    isDeferredPolicy d4 = true ∧ isDeferredPolicy dISecure = false :=
  ⟨(claim10_deferred_flag.1 d4).mpr ⟨Or.inl rfl, rfl⟩,
   claim10_deferred_flag.2.2 dISecure rfl⟩

end IncentiveCalc
